import Mathlib

/-!
Shallow embedding of the TicTacToe websocket backend (`src/main.py`).

Cells, symbols and results are modelled as `String`, exactly as in the
Python source: an empty cell is `" "`, symbols are `"X"`/`"O"`, and
`get_winner` returns `"X"`, `"O"`, `"draw"` or nothing.

Mutable Python objects are modelled by explicit state passing: the
`Player` objects live in a heap (`List PlayerObj`) addressed by index, so
that the mutual `opponent` references and the shared `game_board` alias
exactly as in the source.  Python exceptions that escape to the generic
`except Exception` handler of `websocket_endpoint` are modelled by the
`Except` error channel of the handlers.
-/

namespace TicTacToe

/-- A board is the Python list `self.board`: nine one-character strings. -/
abbrev Board := List String

/-- `GameBoard.__init__`: `self.board = [" " for _ in range(9)]`. -/
def newBoard : Board := List.replicate 9 " "

/-- `self.winning_combinations` from `GameBoard.__init__`, in source order:
three rows, three columns, two diagonals. -/
def winning_combinations : List (Nat × Nat × Nat) :=
  [(0, 1, 2), (3, 4, 5), (6, 7, 8),
   (0, 3, 6), (1, 4, 7), (2, 5, 8),
   (0, 4, 8), (2, 4, 6)]

/-- Errors a `make_move` call can raise: `InvalidMoveException` (caught by
the caller) or Python's `IndexError` (uncaught, escapes to the generic
handler). -/
inductive MoveErr
  | invalidMove
  | indexError
deriving DecidableEq, Repr

/-- Python list-index normalization: `l[i]` accepts `-len l ≤ i < len l`,
mapping a negative `i` to `i + len l`; anything else raises `IndexError`. -/
def pyIndex (len : Nat) (i : Int) : Option Nat :=
  if 0 ≤ i then
    if i < (len : Int) then some i.toNat else none
  else
    if -(len : Int) ≤ i then some (i + (len : Int)).toNat else none

/-- Cell read `self.board[position]` with Python semantics. -/
def boardCell (b : Board) (j : Nat) : String := b.getD j " "

/-- `GameBoard.make_move`: raises `InvalidMoveException` when the addressed
cell is not `" "`, otherwise writes the symbol there.  The index read
itself can raise `IndexError` for positions outside `-9 ≤ p < 9`. -/
def make_move (b : Board) (position : Int) (symbol : String) :
    Except MoveErr Board :=
  match pyIndex b.length position with
  | none => .error .indexError
  | some j =>
      if boardCell b j ≠ " " then .error .invalidMove
      else .ok (b.set j symbol)

/-- The loop body of `GameBoard.get_winner`: return the cell value of the
first combination whose three cells are equal and non-blank. -/
def winnerOfCombos (b : Board) : List (Nat × Nat × Nat) → Option String
  | [] => none
  | (i, j, k) :: rest =>
      if boardCell b i = boardCell b j ∧ boardCell b j = boardCell b k ∧
          boardCell b k ≠ " " then
        some (boardCell b i)
      else winnerOfCombos b rest

/-- `GameBoard.is_draw`: every cell differs from `" "`. -/
def is_draw (b : Board) : Bool := b.all (fun cell => cell ≠ " ")

/-- `GameBoard.get_winner`: scan the winning combinations in order, else
`"draw"` when the board is full, else `None`. -/
def get_winner (b : Board) : Option String :=
  match winnerOfCombos b winning_combinations with
  | some w => some w
  | none => if is_draw b then some "draw" else none

/-- The `Player` dataclass.  `opponent` and `game_board` are Python object
references, modelled as indices into the player heap and the board store. -/
structure PlayerObj where
  websocket : Nat
  nickname : String
  symbol : String := ""
  is_my_turn : Bool := false
  opponent : Option Nat := none
  game_board : Option Nat := none
deriving DecidableEq, Repr, Inhabited

/-- Outbound messages produced by the `ConnectionManager` send helpers; the
first field is the destination websocket. -/
inductive Event
  | error (ws : Nat) (message : String)
  | start (ws : Nat) (symbol : String) (opponent_nickname : String)
  | turn (ws : Nat) (value : Bool)
  | move (ws : Nat) (cell : Int) (symbol : String)
  | gameover (ws : Nat) (result : String)
  | message (ws : Nat) (text : String)
deriving DecidableEq, Repr

/-- The module-level mutable state of `main.py`: the connection manager's
set, the matchmaking queue, the `players` dict, plus the object heaps that
back the Python references. -/
structure ServerState where
  active_connections : List Nat
  waiting_players : List Nat
  players : List (Nat × Nat)
  heap : List PlayerObj
  boards : List Board
deriving DecidableEq, Repr, Inhabited

/-- `players.get(websocket)`: first (most recent) binding of the key. -/
def dictGet (d : List (Nat × Nat)) (k : Nat) : Option Nat :=
  match d.find? (fun kv => kv.1 == k) with
  | some kv => some kv.2
  | none => none

/-- `players[websocket] = player`: the new binding shadows any older one. -/
def dictSet (d : List (Nat × Nat)) (k v : Nat) : List (Nat × Nat) :=
  (k, v) :: d

/-- Dereference a player-heap index. -/
def heapGet (h : List PlayerObj) (i : Nat) : PlayerObj := h.getD i default

/-- Mutate one field group of the player object at index `i`. -/
def updPlayer (st : ServerState) (i : Nat) (f : PlayerObj → PlayerObj) :
    ServerState :=
  { st with heap := st.heap.set i (f (heapGet st.heap i)) }

/-- Dereference a board index. -/
def boardAt (st : ServerState) (i : Nat) : Board := st.boards.getD i newBoard

/-- Write back a mutated board. -/
def setBoard (st : ServerState) (i : Nat) (b : Board) : ServerState :=
  { st with boards := st.boards.set i b }

/-- `ConnectionManager.connect`: accept and add to `active_connections`. -/
def connect (st : ServerState) (ws : Nat) : ServerState :=
  if ws ∈ st.active_connections then st
  else { st with active_connections := st.active_connections ++ [ws] }

/-- `ConnectionManager.disconnect`: remove from `active_connections` only;
neither `waiting_players` nor the `players` dict is touched. -/
def disconnect (st : ServerState) (ws : Nat) : ServerState :=
  { st with active_connections := st.active_connections.filter (fun c => c ≠ ws) }

/-- The `"join"` branch of `websocket_endpoint` (source lines 118-141):
construct a fresh `Player`; if the queue is empty park it, otherwise
dequeue the waiter, link the two players, give the *new* player symbol
`"X"` and the waiter `"O"`, share a fresh board, register both in the
`players` dict, send both `start` events, set the new player's turn flag
and send `turn(True)` to the joining websocket. -/
def handle_join (st : ServerState) (ws : Nat) (nickname : String) :
    ServerState × List Event :=
  let newId := st.heap.length
  let st1 : ServerState :=
    { st with heap := st.heap ++ [{ websocket := ws, nickname := nickname }] }
  match st1.waiting_players with
  | [] =>
      ({ st1 with waiting_players := st1.waiting_players ++ [newId] }, [])
  | oppId :: rest =>
      let st2 := { st1 with waiting_players := rest }
      let st3 := updPlayer st2 oppId (fun p => { p with opponent := some newId })
      let st4 := updPlayer st3 newId (fun p => { p with opponent := some oppId })
      let st5 := updPlayer st4 newId (fun p => { p with symbol := "X" })
      let st6 := updPlayer st5 oppId (fun p => { p with symbol := "O" })
      let boardId := st6.boards.length
      let st7 := { st6 with boards := st6.boards ++ [newBoard] }
      let st8 := updPlayer st7 newId (fun p => { p with game_board := some boardId })
      let st9 := updPlayer st8 oppId (fun p => { p with game_board := some boardId })
      let st10 := { st9 with players := dictSet st9.players ws newId }
      let oppWs := (heapGet st10.heap oppId).websocket
      let st11 := { st10 with players := dictSet st10.players oppWs oppId }
      let ev1 := Event.start ws (heapGet st11.heap newId).symbol
        (heapGet st11.heap oppId).nickname
      let ev2 := Event.start oppWs (heapGet st11.heap oppId).symbol
        (heapGet st11.heap newId).nickname
      let st12 := updPlayer st11 newId (fun p => { p with is_my_turn := true })
      (st12, [ev1, ev2, Event.turn ws true])

/-- The `"move"` branch of `websocket_endpoint` (source lines 142-169).
`.error` is an exception escaping to the generic handler (the
`AttributeError` on a `None` player or opponent, or `IndexError` from the
board), paired with the state and events produced before the raise. -/
def handle_move (st : ServerState) (ws : Nat) (cell : Int) :
    Except (ServerState × List Event) (ServerState × List Event) :=
  match dictGet st.players ws with
  | none => .error (st, [])
  | some pid =>
      let player := heapGet st.heap pid
      if player.is_my_turn = false then
        .ok (st, [Event.error ws "Not your turn"])
      else
        match player.game_board with
        | none => .error (st, [])
        | some bid =>
            match make_move (boardAt st bid) cell player.symbol with
            | .error .invalidMove => .ok (st, [Event.error ws "Invalid move"])
            | .error .indexError => .error (st, [])
            | .ok b =>
                let st1 := setBoard st bid b
                match player.opponent with
                | none =>
                    .error (st1, [Event.move player.websocket cell player.symbol])
                | some oid =>
                    let oppWs := (heapGet st1.heap oid).websocket
                    let evs := [Event.move player.websocket cell player.symbol,
                                Event.move oppWs cell player.symbol]
                    match get_winner b with
                    | some w =>
                        .ok (st1, evs ++ [Event.gameover player.websocket w,
                                          Event.gameover oppWs w])
                    | none =>
                        let st2 := updPlayer st1 pid
                          (fun p => { p with is_my_turn := false })
                        let st3 := updPlayer st2 oid
                          (fun p => { p with is_my_turn := true })
                        .ok (st3, evs ++ [Event.turn player.websocket false,
                                          Event.turn oppWs true])

/-- One decoded inbound client message. -/
inductive ClientMsg
  | join (nickname : String)
  | move (cell : Int)
  | other (t : String)
deriving DecidableEq, Repr

/-- Dispatch of one received message inside the `while True` loop. -/
def handle (st : ServerState) (ws : Nat) (msg : ClientMsg) :
    Except (ServerState × List Event) (ServerState × List Event) :=
  match msg with
  | .join nick => .ok (handle_join st ws nick)
  | .move cell => handle_move st ws cell
  | .other t => .ok (st, [Event.message ws ("Unknown message type:" ++ t)])

/-- One loop iteration including the generic `except Exception` handler:
an escaped exception calls `manager.disconnect` and terminates the task.
The `Bool` is `true` when the connection loop keeps running. -/
def websocket_step (st : ServerState) (ws : Nat) (msg : ClientMsg) :
    ServerState × List Event × Bool :=
  match handle st ws msg with
  | .ok (st1, evs) => (st1, evs, true)
  | .error (st1, evs) => (disconnect st1 ws, evs, false)

/-- Externally visible things that can happen to the server. -/
inductive Action
  | connect (ws : Nat)
  | msg (ws : Nat) (m : ClientMsg)
  | close (ws : Nat)
deriving Repr

/-- Run a sequence of actions from a state, collecting all sent events.
`close` is the `WebSocketDisconnect` path of the endpoint. -/
def runActions : ServerState → List Action → ServerState × List Event
  | st, [] => (st, [])
  | st, Action.connect ws :: rest => runActions (connect st ws) rest
  | st, Action.close ws :: rest => runActions (disconnect st ws) rest
  | st, Action.msg ws m :: rest =>
      let r := websocket_step st ws m
      let r2 := runActions r.1 rest
      (r2.1, r.2.1 ++ r2.2)

/-- The module-level state right after process start: everything empty. -/
def initState : ServerState :=
  { active_connections := [], waiting_players := [], players := [],
    heap := [], boards := [] }

/-- The player object the newly joining side ends up with when it is paired. -/
def pairedNewPlayer (ws : Nat) (nick : String) (oppId boardId : Nat) : PlayerObj :=
  { websocket := ws, nickname := nick, symbol := "X", is_my_turn := true,
    opponent := some oppId, game_board := some boardId }

/-- The mutations applied to the waiting player when it is paired. -/
def pairedOppPlayer (p : PlayerObj) (newId boardId : Nat) : PlayerObj :=
  { p with opponent := some newId, symbol := "O", game_board := some boardId }

/-- Spec-side reading of one triple: the symbol occupying all three of its
cells, when the triple is fully occupied by one symbol. -/
def tripleOccupiedBy (b : Board) (t : Nat × Nat × Nat) : Option String :=
  if boardCell b t.1 ≠ " " ∧ boardCell b t.1 = boardCell b t.2.1 ∧
      boardCell b t.1 = boardCell b t.2.2 then
    some (boardCell b t.1)
  else none

/-- Spec-side `evaluate()`: the first winning triple's symbol, else `draw`
when all 9 cells are occupied, else no result. -/
def evaluateSpec (b : Board) : Option String :=
  match winning_combinations.findSome? (tripleOccupiedBy b) with
  | some s => some s
  | none =>
      if (List.range 9).all (fun i => boardCell b i ≠ " ") then some "draw"
      else none

/-- The server state a handler outcome leaves behind, whether the iteration
returned normally or raised. -/
def stateOf (r : Except (ServerState × List Event) (ServerState × List Event)) :
    ServerState :=
  match r with
  | .ok (s, _) => s
  | .error (s, _) => s

/-- Exactly one of the two players' turn flags is set. -/
def exactlyOneTurn (st : ServerState) (pid oid : Nat) : Prop :=
  ((heapGet st.heap pid).is_my_turn = true ∧
    (heapGet st.heap oid).is_my_turn = false) ∨
  ((heapGet st.heap pid).is_my_turn = false ∧
    (heapGet st.heap oid).is_my_turn = true)

/-- Two clients connect and join in order: alice then bob. -/
def pairScenario : List Action :=
  [Action.connect 1, Action.msg 1 (ClientMsg.join "alice"),
   Action.connect 2, Action.msg 2 (ClientMsg.join "bob")]

/-- State with alice alone in the waiting queue. -/
def pairWaitState : ServerState :=
  (runActions initState
    [Action.connect 1, Action.msg 1 (ClientMsg.join "alice")]).1

/-- State right after alice and bob are paired (bob holds `"X"`). -/
def pairState : ServerState := (runActions initState pairScenario).1

/-- The paired game played to bob's win on the top row: X at 0, O at 3,
X at 1, O at 4, X at 2. -/
def wonRun : ServerState × List Event :=
  runActions (runActions initState pairScenario).1
    [Action.msg 2 (ClientMsg.move 0), Action.msg 1 (ClientMsg.move 3),
     Action.msg 2 (ClientMsg.move 1), Action.msg 1 (ClientMsg.move 4),
     Action.msg 2 (ClientMsg.move 2)]

/-- Alice joins, disconnects while waiting, then bob joins. -/
def waitCloseRun : ServerState × List Event :=
  runActions initState
    [Action.connect 1, Action.msg 1 (ClientMsg.join "alice"),
     Action.close 1, Action.connect 2, Action.msg 2 (ClientMsg.join "bob")]

/-- Alice joins and disconnects while waiting (the prefix of
`waitCloseRun` up to the close). -/
def waitCloseState : ServerState :=
  (runActions initState
    [Action.connect 1, Action.msg 1 (ClientMsg.join "alice"),
     Action.close 1]).1

/-! ### Helper lemmas about the player heap and the registry -/

lemma heapGet_set_self {h : List PlayerObj} {i : Nat} (p : PlayerObj)
    (hi : i < h.length) : heapGet (h.set i p) i = p := by
  rw [heapGet, List.getD_eq_getElem _ _ (by simpa using hi)]
  exact List.getElem_set_self _

lemma heapGet_set_ne {h : List PlayerObj} {i j : Nat} (p : PlayerObj)
    (hij : i ≠ j) : heapGet (h.set i p) j = heapGet h j := by
  by_cases hj : j < h.length
  · rw [heapGet, List.getD_eq_getElem _ _ (by simpa using hj),
      heapGet, List.getD_eq_getElem _ _ hj]
    exact List.getElem_set_of_ne hij _ _
  · rw [heapGet, List.getD_eq_default _ _ (by simpa using Nat.le_of_not_lt hj),
      heapGet, List.getD_eq_default _ _ (Nat.le_of_not_lt hj)]

lemma heapGet_append_self (h : List PlayerObj) (p : PlayerObj) :
    heapGet (h ++ [p]) h.length = p := by
  rw [heapGet, List.getD_append_right _ _ _ _ (Nat.le_refl _), Nat.sub_self]
  rfl

lemma heapGet_append_lt (h : List PlayerObj) (p : PlayerObj) {i : Nat}
    (hi : i < h.length) : heapGet (h ++ [p]) i = heapGet h i := by
  rw [heapGet, List.getD_append _ _ _ _ hi, heapGet]

lemma dictGet_set_self (d : List (Nat × Nat)) (k v : Nat) :
    dictGet (dictSet d k v) k = some v := by
  simp [dictGet, dictSet, List.find?]

lemma dictGet_set_ne (d : List (Nat × Nat)) {k k' : Nat} (v : Nat)
    (hk : k' ≠ k) : dictGet (dictSet d k v) k' = dictGet d k' := by
  have h : (k == k') = false := beq_eq_false_iff_ne.mpr fun he => hk he.symm
  simp [dictGet, dictSet, List.find?, h]

/-- Characterization of the pairing branch of `handle_join`: everything the
endpoint does when a join finds the waiting queue non-empty. -/
lemma handle_join_pair_spec (st : ServerState) (ws : Nat) (nick : String)
    (oppId : Nat) (rest : List Nat) (hq : st.waiting_players = oppId :: rest)
    (hlt : oppId < st.heap.length) :
    (handle_join st ws nick).1.waiting_players = rest ∧
    (handle_join st ws nick).1.players =
      dictSet (dictSet st.players ws st.heap.length)
        (heapGet st.heap oppId).websocket oppId ∧
    (handle_join st ws nick).1.heap.length = st.heap.length + 1 ∧
    heapGet (handle_join st ws nick).1.heap st.heap.length =
      pairedNewPlayer ws nick oppId st.boards.length ∧
    heapGet (handle_join st ws nick).1.heap oppId =
      pairedOppPlayer (heapGet st.heap oppId) st.heap.length st.boards.length ∧
    (handle_join st ws nick).2 =
      [Event.start ws "X" (heapGet st.heap oppId).nickname,
       Event.start (heapGet st.heap oppId).websocket "O" nick,
       Event.turn ws true] ∧
    (handle_join st ws nick).1.active_connections = st.active_connections ∧
    (handle_join st ws nick).1.boards = st.boards ++ [newBoard] := by
  have hne : oppId ≠ st.heap.length := Nat.ne_of_lt hlt
  have hne' : st.heap.length ≠ oppId := Nat.ne_of_gt hlt
  have hlt' : oppId < st.heap.length + 1 := Nat.lt_succ_of_lt hlt
  unfold handle_join
  simp only [hq, updPlayer, heapGet_set_self, heapGet_set_ne _ hne,
    heapGet_set_ne _ hne', heapGet_append_self, heapGet_append_lt _ _ hlt,
    List.length_set, List.length_append, List.length_cons, List.length_nil,
    Nat.lt_add_one, hlt, hlt', pairedNewPlayer, pairedOppPlayer]
  simp [pairedNewPlayer, pairedOppPlayer]

/-! ### Board evaluation, spec-side equivalence -/

lemma triple_cond_iff (x y z : String) :
    (x = y ∧ y = z ∧ z ≠ " ") ↔ (x ≠ " " ∧ x = y ∧ x = z) := by
  constructor
  · rintro ⟨hxy, hyz, hz⟩
    exact ⟨by rw [hxy, hyz]; exact hz, hxy, hxy.trans hyz⟩
  · rintro ⟨hx, hxy, hxz⟩
    exact ⟨hxy, hxy.symm.trans hxz, by rw [← hxz]; exact hx⟩

lemma winnerOfCombos_eq_findSome (b : Board) :
    ∀ cs : List (Nat × Nat × Nat),
      winnerOfCombos b cs = cs.findSome? (tripleOccupiedBy b)
  | [] => rfl
  | (i, j, k) :: rest => by
      rw [winnerOfCombos, List.findSome?_cons]
      by_cases h : boardCell b i = boardCell b j ∧
          boardCell b j = boardCell b k ∧ boardCell b k ≠ " "
      · rw [if_pos h, tripleOccupiedBy, if_pos ((triple_cond_iff _ _ _).mp h)]
      · rw [if_neg h, tripleOccupiedBy,
          if_neg (fun hc => h ((triple_cond_iff _ _ _).mpr hc)),
          winnerOfCombos_eq_findSome b rest]

lemma is_draw_eq_range_all (b : Board) (hb : b.length = 9) :
    is_draw b = ((List.range 9).all fun i => boardCell b i ≠ " ") := by
  rw [Bool.eq_iff_iff]
  simp only [is_draw, List.all_eq_true, decide_eq_true_eq, List.mem_range]
  constructor
  · intro hall i hi
    have hi' : i < b.length := by rw [hb]; exact hi
    rw [boardCell, List.getD_eq_getElem _ _ hi']
    exact hall _ (List.getElem_mem hi')
  · intro hall x hx
    obtain ⟨i, hi, hix⟩ := List.mem_iff_getElem.mp hx
    have h9 : i < 9 := by rw [← hb]; exact hi
    have := hall i h9
    rw [boardCell, List.getD_eq_getElem _ _ hi, hix] at this
    exact this

/-! ### Claim theorems -/

/-- Claim C8: for every 9-cell board, `get_winner` scans the 8 fixed
winning triples (3 rows, 3 columns, 2 diagonals) and returns the symbol of
the first triple fully occupied by one symbol; if no triple is won and all
9 cells are occupied it returns `"draw"`; otherwise no result.  Stated as
equality with the spec-worded `evaluateSpec`. -/
theorem C8_get_winner_matches_spec (b : Board) (hb : b.length = 9) :
    get_winner b = evaluateSpec b := by
  unfold get_winner evaluateSpec
  rw [winnerOfCombos_eq_findSome, is_draw_eq_range_all b hb]

/-- Witness for C8 at the concrete top-row-win board of `wonRun`. -/
theorem C8_get_winner_matches_spec_witness :
    (boardAt wonRun.1 0).length = 9 ∧
    get_winner (boardAt wonRun.1 0) = evaluateSpec (boardAt wonRun.1 0) :=
  ⟨by decide, C8_get_winner_matches_spec (boardAt wonRun.1 0) (by decide)⟩

/-- Claim C1 counterexample: run alice's join followed by bob's join.  The
waiting player (alice, heap index 0) ends with symbol `"O"`, not `"X"` as
the claim states; the newly joined bob (heap index 1) holds `"X"`, and the
`turn{value:true}` event goes to bob's websocket 2, never to alice's
websocket 1. -/
theorem C1_counterexample :
    (heapGet (runActions initState pairScenario).1.heap 0).nickname = "alice" ∧
    (heapGet (runActions initState pairScenario).1.heap 0).symbol = "O" ∧
    ¬ (heapGet (runActions initState pairScenario).1.heap 0).symbol = "X" ∧
    (heapGet (runActions initState pairScenario).1.heap 1).symbol = "X" ∧
    (runActions initState pairScenario).2 =
      [Event.start 2 "X" "alice", Event.start 1 "O" "bob",
       Event.turn 2 true] ∧
    Event.turn 1 true ∉ (runActions initState pairScenario).2 := by
  decide

/-- Claim C1 (amended): when a second client joins while one Player is
waiting, the newly joined player receives symbol `"X"` with turn flag set
true, the waiting player receives `"O"` with its flag left false, each
player receives a `start` event carrying its own symbol and the opponent's
nickname, and the newly joined (X) player receives `turn{value:true}`. -/
theorem C1_pairing_assignment (st : ServerState) (ws : Nat) (nick : String)
    (oppId : Nat) (rest : List Nat) (hq : st.waiting_players = oppId :: rest)
    (hlt : oppId < st.heap.length)
    (hturn : (heapGet st.heap oppId).is_my_turn = false) :
    (heapGet (handle_join st ws nick).1.heap st.heap.length).symbol = "X" ∧
    (heapGet (handle_join st ws nick).1.heap st.heap.length).is_my_turn = true ∧
    (heapGet (handle_join st ws nick).1.heap oppId).symbol = "O" ∧
    (heapGet (handle_join st ws nick).1.heap oppId).is_my_turn = false ∧
    (handle_join st ws nick).2 =
      [Event.start ws "X" (heapGet st.heap oppId).nickname,
       Event.start (heapGet st.heap oppId).websocket "O" nick,
       Event.turn ws true] := by
  obtain ⟨-, -, -, hnew, hopp, hev, -, -⟩ :=
    handle_join_pair_spec st ws nick oppId rest hq hlt
  rw [hnew, hopp, hev]
  exact ⟨rfl, rfl, rfl, hturn, rfl⟩

/-- Witness for the amended C1: bob joins while alice is waiting. -/
theorem C1_pairing_assignment_witness :
    (heapGet (handle_join pairWaitState 2 "bob").1.heap
      pairWaitState.heap.length).symbol = "X" ∧
    (heapGet (handle_join pairWaitState 2 "bob").1.heap
      pairWaitState.heap.length).is_my_turn = true ∧
    (heapGet (handle_join pairWaitState 2 "bob").1.heap 0).symbol = "O" ∧
    (heapGet (handle_join pairWaitState 2 "bob").1.heap 0).is_my_turn = false ∧
    (handle_join pairWaitState 2 "bob").2 =
      [Event.start 2 "X" (heapGet pairWaitState.heap 0).nickname,
       Event.start (heapGet pairWaitState.heap 0).websocket "O" "bob",
       Event.turn 2 true] :=
  C1_pairing_assignment pairWaitState 2 "bob" 0 [] (by decide) (by decide)
    (by decide)

/-- Claim C2: evaluation of the code at the failing input.  After bob's
top-row win the `gameover` events have been emitted to both players, yet
bob's turn flag is still set (no toggle occurred), so bob's next
`submit_move` on the empty cell 5 is accepted: the board is mutated and a
`move` event is even broadcast — contradicting the claim that every
post-finish move fails and leaves the board unchanged. -/
theorem C2_post_gameover_move_accepted :
    get_winner (boardAt wonRun.1 0) = some "X" ∧
    Event.gameover 1 "X" ∈ wonRun.2 ∧
    Event.gameover 2 "X" ∈ wonRun.2 ∧
    (heapGet wonRun.1.heap 1).is_my_turn = true ∧
    boardCell (boardAt wonRun.1 0) 5 = " " ∧
    boardCell (boardAt (websocket_step wonRun.1 2 (ClientMsg.move 5)).1 0) 5
      = "X" ∧
    Event.move 1 5 "X" ∈ (websocket_step wonRun.1 2 (ClientMsg.move 5)).2.1 := by
  decide

/-- Claim C3: evaluation of the code at the failing inputs.  A move at
position 9 raises `IndexError`, which is not converted into an error
event: the step sends nothing, the generic handler removes the connection
and the task terminates (third and second conjuncts), though the board is
indeed unchanged there.  Worse, position -1 is accepted by Python's
negative indexing and mutates cell 8. -/
theorem C3_out_of_range_not_rejected :
    (websocket_step pairState 2 (ClientMsg.move 9)).2.1 = [] ∧
    (websocket_step pairState 2 (ClientMsg.move 9)).2.2 = false ∧
    2 ∉ (websocket_step pairState 2 (ClientMsg.move 9)).1.active_connections ∧
    boardAt (websocket_step pairState 2 (ClientMsg.move 9)).1 0
      = boardAt pairState 0 ∧
    boardCell (boardAt pairState 0) 8 = " " ∧
    boardCell (boardAt (websocket_step pairState 2 (ClientMsg.move (-1))).1 0) 8
      = "X" := by
  decide

/-- Claim C4: evaluation of the code at the failing inputs.  A `move` from
a connection that never joined (websocket 5), and from one that joined but
is still waiting (alice on websocket 1), both hit `players.get -> None`
and the `None.opponent` attribute access raises: no error event is sent,
the connection is removed from the active set and its task terminates —
not the claimed `UnknownConnection` error with the connection left open. -/
theorem C4_unregistered_move_crashes :
    (websocket_step (connect initState 5) 5 (ClientMsg.move 0)).2.1 = [] ∧
    (websocket_step (connect initState 5) 5 (ClientMsg.move 0)).2.2 = false ∧
    5 ∉ (websocket_step (connect initState 5) 5
      (ClientMsg.move 0)).1.active_connections ∧
    dictGet pairWaitState.players 1 = none ∧
    (websocket_step pairWaitState 1 (ClientMsg.move 0)).2.1 = [] ∧
    (websocket_step pairWaitState 1 (ClientMsg.move 0)).2.2 = false ∧
    1 ∉ (websocket_step pairWaitState 1
      (ClientMsg.move 0)).1.active_connections := by
  decide

/-- Claim C5: evaluation of the code at the failing input.  Alice joins and
disconnects while waiting: she is still in the waiting queue afterwards,
and bob's subsequent join pairs him with the disconnected alice — her
`start{symbol:"O"}` event is addressed to websocket 1, which is no longer
among the active connections. -/
theorem C5_disconnected_player_still_paired :
    waitCloseState.waiting_players = [0] ∧
    (heapGet waitCloseState.heap 0).nickname = "alice" ∧
    1 ∉ waitCloseState.active_connections ∧
    (heapGet waitCloseRun.1.heap 1).opponent = some 0 ∧
    (heapGet waitCloseRun.1.heap 0).opponent = some 1 ∧
    1 ∉ waitCloseRun.1.active_connections ∧
    Event.start 1 "O" "bob" ∈ waitCloseRun.2 := by
  decide

/-- Claim C6: exactly one of the two paired players has its turn flag set.
The invariant is established by match start (first conjunct: after a
pairing join the new player's flag is true and the waiting player's is
false) and preserved by every `move` handling step, whatever its outcome
(second conjunct): rejected moves leave the flags alone, a winning move
performs no toggle, and an accepted non-winning move toggles both flags
in opposite directions. -/
theorem C6_turn_exclusivity :
    (∀ st ws nick oppId rest, st.waiting_players = oppId :: rest →
      oppId < st.heap.length → (heapGet st.heap oppId).is_my_turn = false →
      exactlyOneTurn (handle_join st ws nick).1 st.heap.length oppId) ∧
    (∀ st ws cell pid oid, dictGet st.players ws = some pid →
      (heapGet st.heap pid).opponent = some oid → pid ≠ oid →
      pid < st.heap.length → oid < st.heap.length →
      exactlyOneTurn st pid oid →
      exactlyOneTurn (stateOf (handle_move st ws cell)) pid oid) := by
  constructor
  · intro st ws nick oppId rest hq hlt hturn
    obtain ⟨-, -, -, hnew, hopp, -, -, -⟩ :=
      handle_join_pair_spec st ws nick oppId rest hq hlt
    rw [exactlyOneTurn, hnew, hopp]
    exact Or.inl ⟨rfl, hturn⟩
  · intro st ws cell pid oid hget hopp hne hpid hoid hx
    cases ht : (heapGet st.heap pid).is_my_turn with
    | false =>
        simp [handle_move, hget, ht, stateOf]
        exact hx
    | true =>
        cases hgb : (heapGet st.heap pid).game_board with
        | none =>
            simp [handle_move, hget, ht, hgb, stateOf]
            exact hx
        | some bid =>
            cases hmv : make_move (boardAt st bid) cell
                (heapGet st.heap pid).symbol with
            | error e =>
                cases e
                · simp [handle_move, hget, ht, hgb, hmv, stateOf]
                  exact hx
                · simp [handle_move, hget, ht, hgb, hmv, stateOf]
                  exact hx
            | ok b =>
                cases hw : get_winner b with
                | some w =>
                    simp [handle_move, hget, ht, hgb, hmv, hopp, hw, stateOf]
                    simpa [exactlyOneTurn, setBoard] using hx
                | none =>
                    simp [handle_move, hget, ht, hgb, hmv, hopp, hw, stateOf,
                      updPlayer, setBoard]
                    unfold exactlyOneTurn
                    refine Or.inr ⟨?_, ?_⟩
                    · rw [heapGet_set_ne _ (Ne.symm hne),
                        heapGet_set_self _ (by simpa using hpid)]
                    · rw [heapGet_set_self _ (by simpa using hoid)]

/-- Witness for C6: the invariant holds after bob joins waiting alice, and
is preserved when bob then plays cell 0. -/
theorem C6_turn_exclusivity_witness :
    exactlyOneTurn (handle_join pairWaitState 2 "bob").1
      pairWaitState.heap.length 0 ∧
    exactlyOneTurn (stateOf (handle_move pairState 2 0)) 1 0 :=
  ⟨C6_turn_exclusivity.1 pairWaitState 2 "bob" 0 [] (by decide) (by decide)
      (by decide),
   C6_turn_exclusivity.2 pairState 2 0 1 0 (by decide) (by decide)
      (by decide) (by decide) (by decide) (Or.inl ⟨by decide, by decide⟩)⟩

/-- Claim C7: for a registered player, a move when the player's turn flag
is false, and a move onto an occupied (in-range) cell when it is the
player's turn, both leave the whole server state unchanged and produce
exactly one `error` event — `"Not your turn"` respectively
`"Invalid move"` — addressed to the acting websocket only, so the
opponent receives nothing. -/
theorem C7_illegal_move_rejected (st : ServerState) (ws : Nat) (cell : Int)
    (pid bid j : Nat) (hget : dictGet st.players ws = some pid)
    (hbad : (heapGet st.heap pid).is_my_turn = false ∨
      ((heapGet st.heap pid).is_my_turn = true ∧
        (heapGet st.heap pid).game_board = some bid ∧
        pyIndex (boardAt st bid).length cell = some j ∧
        boardCell (boardAt st bid) j ≠ " ")) :
    handle_move st ws cell = .ok (st, [Event.error ws
      (if (heapGet st.heap pid).is_my_turn then "Invalid move"
       else "Not your turn")]) := by
  rcases hbad with ht | ⟨ht, hgb, hidx, hocc⟩
  · simp [handle_move, hget, ht]
  · simp [handle_move, hget, ht, hgb, make_move, hidx, hocc]

/-- Witness for C7: alice (whose flag is false right after pairing) tries
to move; and after bob's opening move on cell 0, alice tries cell 0. -/
theorem C7_illegal_move_rejected_witness :
    handle_move pairState 1 7 = .ok (pairState, [Event.error 1
      (if (heapGet pairState.heap 0).is_my_turn then "Invalid move"
       else "Not your turn")]) ∧
    handle_move (stateOf (handle_move pairState 2 0)) 1 0 =
      .ok (stateOf (handle_move pairState 2 0), [Event.error 1
        (if (heapGet (stateOf (handle_move pairState 2 0)).heap 0).is_my_turn
         then "Invalid move" else "Not your turn")]) :=
  ⟨C7_illegal_move_rejected pairState 1 7 0 0 0 (by decide)
      (Or.inl (by decide)),
   C7_illegal_move_rejected (stateOf (handle_move pairState 2 0)) 1 0 0 0 0
      (by decide) (Or.inr ⟨by decide, by decide, by decide, by decide⟩)⟩

/-- Claim C9 counterexample: alice's `join` has been processed (she is in
the waiting queue) yet the `players` dict has no entry for her websocket,
refuting "an entry is created when that connection's join is processed";
and after websocket 1 disconnects from the paired state its entry is still
present, refuting "the entry is removed when the connection disconnects". -/
theorem C9_counterexample :
    pairWaitState.waiting_players = [0] ∧
    dictGet pairWaitState.players 1 = none ∧
    dictGet (disconnect pairState 1).players 1 = some 0 ∧
    1 ∉ (disconnect pairState 1).active_connections := by
  decide

/-- Claim C9 (amended): the Session Registry maps connections to players,
but entries are created only when a join results in a pairing — the
pairing join registers both websockets, while a join that merely parks the
player in the waiting queue registers nothing — and disconnect never
removes an entry. -/
theorem C9_registry_amended :
    (∀ st ws nick, st.waiting_players = [] →
      (handle_join st ws nick).1.players = st.players) ∧
    (∀ st ws nick oppId rest, st.waiting_players = oppId :: rest →
      oppId < st.heap.length →
      dictGet (handle_join st ws nick).1.players
          (heapGet st.heap oppId).websocket = some oppId ∧
      ((heapGet st.heap oppId).websocket ≠ ws →
        dictGet (handle_join st ws nick).1.players ws
          = some st.heap.length)) ∧
    (∀ st ws, (disconnect st ws).players = st.players) := by
  refine ⟨?_, ?_, fun st ws => rfl⟩
  · intro st ws nick hq
    simp [handle_join, hq]
  · intro st ws nick oppId rest hq hlt
    obtain ⟨-, hp, -, -, -, -, -, -⟩ :=
      handle_join_pair_spec st ws nick oppId rest hq hlt
    rw [hp]
    exact ⟨dictGet_set_self _ _ _, fun hne => by
      rw [dictGet_set_ne _ _ (Ne.symm hne), dictGet_set_self]⟩

/-- Witness for the amended C9: alice's solo join adds no entry; bob's
pairing join registers both websockets; disconnecting removes nothing. -/
theorem C9_registry_amended_witness :
    (handle_join initState 1 "alice").1.players = initState.players ∧
    dictGet (handle_join pairWaitState 2 "bob").1.players
      (heapGet pairWaitState.heap 0).websocket = some 0 ∧
    dictGet (handle_join pairWaitState 2 "bob").1.players 2
      = some pairWaitState.heap.length ∧
    (disconnect pairState 1).players = pairState.players :=
  ⟨C9_registry_amended.1 initState 1 "alice" rfl,
   (C9_registry_amended.2.1 pairWaitState 2 "bob" 0 [] (by decide)
      (by decide)).1,
   (C9_registry_amended.2.1 pairWaitState 2 "bob" 0 [] (by decide)
      (by decide)).2 (by decide),
   C9_registry_amended.2.2 pairState 1⟩

/-- Claim C10: a second `join` from the connection whose own Player holds
the waiting slot is not rejected: a new Player is created (the heap
grows), the earlier waiting Player is dequeued and the two are linked as
opponents, both player handles carry the same websocket, both share the
one new board, and no `error` event is emitted. -/
theorem C10_self_pairing (st : ServerState) (ws : Nat) (nick : String)
    (oppId : Nat) (rest : List Nat) (hq : st.waiting_players = oppId :: rest)
    (hlt : oppId < st.heap.length)
    (hws : (heapGet st.heap oppId).websocket = ws) :
    (handle_join st ws nick).1.heap.length = st.heap.length + 1 ∧
    (heapGet (handle_join st ws nick).1.heap st.heap.length).opponent
      = some oppId ∧
    (heapGet (handle_join st ws nick).1.heap oppId).opponent
      = some st.heap.length ∧
    (heapGet (handle_join st ws nick).1.heap st.heap.length).websocket = ws ∧
    (heapGet (handle_join st ws nick).1.heap oppId).websocket = ws ∧
    (heapGet (handle_join st ws nick).1.heap st.heap.length).game_board
      = some st.boards.length ∧
    (heapGet (handle_join st ws nick).1.heap oppId).game_board
      = some st.boards.length ∧
    (handle_join st ws nick).1.waiting_players = rest ∧
    ∀ ws' m, Event.error ws' m ∉ (handle_join st ws nick).2 := by
  obtain ⟨hw, -, hlen, hnew, hopp, hev, -, -⟩ :=
    handle_join_pair_spec st ws nick oppId rest hq hlt
  refine ⟨hlen, ?_, ?_, ?_, ?_, ?_, ?_, hw, ?_⟩
  · rw [hnew]; rfl
  · rw [hopp]; rfl
  · rw [hnew]; rfl
  · rw [hopp]; exact hws
  · rw [hnew]; rfl
  · rw [hopp]; rfl
  · intro ws' m hm
    rw [hev] at hm
    simp at hm

/-- Witness for C10: alice (waiting on websocket 1) sends a second join
from the same websocket and is paired with herself. -/
theorem C10_self_pairing_witness :
    (handle_join pairWaitState 1 "alice2").1.heap.length
      = pairWaitState.heap.length + 1 ∧
    (heapGet (handle_join pairWaitState 1 "alice2").1.heap
      pairWaitState.heap.length).opponent = some 0 ∧
    (heapGet (handle_join pairWaitState 1 "alice2").1.heap 0).opponent
      = some pairWaitState.heap.length ∧
    (heapGet (handle_join pairWaitState 1 "alice2").1.heap
      pairWaitState.heap.length).websocket = 1 ∧
    (heapGet (handle_join pairWaitState 1 "alice2").1.heap 0).websocket = 1 ∧
    (heapGet (handle_join pairWaitState 1 "alice2").1.heap
      pairWaitState.heap.length).game_board
      = some pairWaitState.boards.length ∧
    (heapGet (handle_join pairWaitState 1 "alice2").1.heap 0).game_board
      = some pairWaitState.boards.length ∧
    (handle_join pairWaitState 1 "alice2").1.waiting_players = [] ∧
    ∀ ws' m, Event.error ws' m ∉ (handle_join pairWaitState 1 "alice2").2 :=
  C10_self_pairing pairWaitState 1 "alice2" 0 [] (by decide) (by decide)
    (by decide)

end TicTacToe
